import Mathlib

/- Verification of the Socket-Chat repository's real-time layer and private-chat
   database layer.

   The socket model below is a shallow embedding of `setupSocketHandlers` in the
   backend socket-handler module: server state is the set of connected sockets
   (socket id, authenticated user id, joined rooms) together with the in-memory
   `generalMessages` list; each client event becomes a step function returning
   the new state and the list of (recipient socket id, payload) emissions, in
   the order the code emits them.  Opaque string ids (socket ids, user uuids)
   are modelled as `String`; `Date.now()` values are modelled as a `Nat`
   supplied to the step at handling time (the code stores
   `Date.now().toString()`; its numeric value is kept for message stamps).

   The database model embeds the `chats` / `chat_members` tables, the
   `ChatModel.create` / `ChatModel.addMember` operations and the
   `prevent_duplicate_private_chats` trigger (an AFTER INSERT ON chats row
   trigger), plus `ChatModel.findPrivateChat`, with tables as lists of rows in
   insertion order and `queryOne` as the first matching row. -/

/-- One entry of the in-memory `generalMessages` store: `id` (numeric value of
the stored decimal string), `content`, and `sender.id`. -/
structure GenMessage where
  mid : Nat
  content : String
  senderId : String
  deriving DecidableEq

/-- A connected socket: socket id, authenticated `userId`, and the set of rooms
it has joined (socket.io room names). -/
structure Sock where
  sid : String
  userId : String
  rooms : List String
  deriving DecidableEq

/-- A room descriptor as emitted by the `get_user_rooms`, `get_public_rooms`
and `create_room` handlers. -/
structure RoomInfo where
  rid : String
  name : String
  descr : String
  memberCount : Nat
  isPrivate : Bool
  role : Option String
  createdBy : Option String
  deriving DecidableEq

/-- Payloads emitted to clients by the socket handlers.  User-list payloads
keep the `id` fields (the other projected fields are functions of the same
sockets). -/
inductive SEvent where
  | generalMessagesEv : List GenMessage → SEvent
  | onlineUsersEv : List String → SEvent
  | userJoinedEv : String → SEvent
  | userLeftEv : String → SEvent
  | onlineUsersUpdatedEv : List String → SEvent
  | generalMessageEv : GenMessage → SEvent
  | userRoomsEv : List RoomInfo → SEvent
  | publicRoomsEv : List RoomInfo → SEvent
  | roomCreatedEv : RoomInfo → SEvent
  | roomJoinedEv : String → SEvent
  | roomLeftEv : String → SEvent
  deriving DecidableEq

/-- One outbound delivery: recipient socket id and payload. -/
abbrev Out := String × SEvent

/-- Server state: connected sockets (in connection order) and the in-memory
general message store. -/
structure ServerState where
  socks : List Sock
  generalMessages : List GenMessage
  deriving DecidableEq

/-- The seeded first entry of `generalMessages` (id `'1'`, sender `'system'`). -/
def welcomeMessage : GenMessage :=
  ⟨1, "Welcome to the general chat! 🎉", "system"⟩

/-- State at process start: no sockets, the seeded welcome message. -/
def initialState : ServerState := ⟨[], [welcomeMessage]⟩

/-- Projection used by the user-list payloads. -/
def onlineUserIds (socks : List Sock) : List String :=
  socks.map (fun x => x.userId)

/-- The `connection` handler: the socket joins `'general'`, receives the
current `generalMessages` and the online users of other identities, every
other socket gets a `user_joined` broadcast, and every socket (the new one
included) gets `online_users_updated`. -/
def connectStep (s : ServerState) (sid uid : String) : ServerState × List Out :=
  let newSock : Sock := ⟨sid, uid, ["general"]⟩
  let socks1 := s.socks ++ [newSock]
  let outs :=
    [(sid, SEvent.generalMessagesEv s.generalMessages),
     (sid, SEvent.onlineUsersEv
       ((socks1.filter (fun x => x.userId != uid)).map (fun x => x.userId)))]
    ++ s.socks.map (fun x => (x.sid, SEvent.userJoinedEv uid))
    ++ socks1.map (fun x => (x.sid, SEvent.onlineUsersUpdatedEv (onlineUserIds socks1)))
  (⟨socks1, s.generalMessages⟩, outs)

/-- The `disconnect` handler: by the time it runs the socket is out of the
namespace, so the `user_left` and `online_users_updated` broadcasts reach
exactly the remaining sockets. -/
def disconnectStep (s : ServerState) (sid : String) : ServerState × List Out :=
  match s.socks.find? (fun x => x.sid == sid) with
  | none => (s, [])
  | some sock =>
    let remaining := s.socks.filter (fun x => x.sid != sid)
    let outs :=
      remaining.map (fun x => (x.sid, SEvent.userLeftEv sock.userId))
      ++ remaining.map
        (fun x => (x.sid, SEvent.onlineUsersUpdatedEv (onlineUserIds remaining)))
    (⟨remaining, s.generalMessages⟩, outs)

/-- The `send_general_message` handler: builds the message with
`id = Date.now().toString()` (here `now`), pushes it onto `generalMessages`,
and broadcasts it to every socket in room `'general'` (sender included).
No validation of `content` is performed. -/
def sendGeneralMessageStep (s : ServerState) (now : Nat) (sid : String)
    (content : String) : ServerState × List Out :=
  match s.socks.find? (fun x => x.sid == sid) with
  | none => (s, [])
  | some sock =>
    let message : GenMessage := ⟨now, content, sock.userId⟩
    let inGeneral := s.socks.filter (fun x => x.rooms.contains "general")
    (⟨s.socks, s.generalMessages ++ [message]⟩,
     inGeneral.map (fun x => (x.sid, SEvent.generalMessageEv message)))

/-- The `get_general_messages` handler. -/
def getGeneralMessagesStep (s : ServerState) (sid : String) :
    ServerState × List Out :=
  (s, [(sid, SEvent.generalMessagesEv s.generalMessages)])

/-- The `get_online_users` handler: users of all sockets whose identity differs
from the requester's. -/
def getOnlineUsersStep (s : ServerState) (sid : String) : ServerState × List Out :=
  match s.socks.find? (fun x => x.sid == sid) with
  | none => (s, [])
  | some sock =>
    (s, [(sid, SEvent.onlineUsersEv
      ((s.socks.filter (fun x => x.userId != sock.userId)).map (fun x => x.userId)))])

/-- The literal room returned by `get_user_rooms`. -/
def myPrivateRoom : RoomInfo :=
  ⟨"1", "My Private Room", "A private room for close friends", 3, true,
   some "admin", none⟩

/-- The first literal room returned by `get_public_rooms`. -/
def techTalkRoom : RoomInfo :=
  ⟨"public1", "Tech Talk", "Discuss the latest in technology", 25, false,
   none, none⟩

/-- The second literal room returned by `get_public_rooms`. -/
def randomChatRoom : RoomInfo :=
  ⟨"public2", "Random Chat", "General discussions about anything", 15, false,
   none, none⟩

/-- The `get_user_rooms` handler: replies with a hard-coded sample list. -/
def getUserRoomsStep (s : ServerState) (sid : String) : ServerState × List Out :=
  (s, [(sid, SEvent.userRoomsEv [myPrivateRoom])])

/-- The `get_public_rooms` handler: replies with a hard-coded sample list. -/
def getPublicRoomsStep (s : ServerState) (sid : String) : ServerState × List Out :=
  (s, [(sid, SEvent.publicRoomsEv [techTalkRoom, randomChatRoom])])

/-- The `create_room` handler: builds a room object with
`id = Date.now().toString()` and emits `room_created` to the requester only;
nothing else changes. -/
def createRoomStep (s : ServerState) (now : Nat) (sid name descr : String)
    (isPrivate : Bool) : ServerState × List Out :=
  match s.socks.find? (fun x => x.sid == sid) with
  | none => (s, [])
  | some sock =>
    (s, [(sid, SEvent.roomCreatedEv
      ⟨toString now, name, descr, 1, isPrivate, some "admin", some sock.userId⟩)])

/-- The `join_room` handler: `socket.join` (idempotent) then `room_joined` to
the requester. -/
def joinRoomStep (s : ServerState) (sid roomId : String) : ServerState × List Out :=
  (⟨s.socks.map (fun x =>
      if x.sid == sid then
        ⟨x.sid, x.userId,
         if x.rooms.contains roomId then x.rooms else x.rooms ++ [roomId]⟩
      else x),
    s.generalMessages⟩,
   [(sid, SEvent.roomJoinedEv roomId)])

/-- The `leave_room` handler: `socket.leave` (no-op when absent) then
`room_left` to the requester.  Any room id may be left, `'general'` included. -/
def leaveRoomStep (s : ServerState) (sid roomId : String) : ServerState × List Out :=
  (⟨s.socks.map (fun x =>
      if x.sid == sid then
        ⟨x.sid, x.userId, x.rooms.filter (fun r => r != roomId)⟩
      else x),
    s.generalMessages⟩,
   [(sid, SEvent.roomLeftEv roomId)])

/-- Client events the handler set reacts to. -/
inductive Op where
  | connect : String → String → Op
  | disconnect : String → Op
  | send : Nat → String → String → Op
  | getGeneral : String → Op
  | getOnline : String → Op
  | getUserRooms : String → Op
  | getPublicRooms : String → Op
  | createRoom : Nat → String → String → String → Bool → Op
  | joinRoom : String → String → Op
  | leaveRoom : String → String → Op
  deriving DecidableEq

/-- One handler invocation (the node event loop runs handlers to completion
one at a time). -/
def stepOp (s : ServerState) : Op → ServerState × List Out
  | Op.connect sid uid => connectStep s sid uid
  | Op.disconnect sid => disconnectStep s sid
  | Op.send now sid content => sendGeneralMessageStep s now sid content
  | Op.getGeneral sid => getGeneralMessagesStep s sid
  | Op.getOnline sid => getOnlineUsersStep s sid
  | Op.getUserRooms sid => getUserRoomsStep s sid
  | Op.getPublicRooms sid => getPublicRoomsStep s sid
  | Op.createRoom now sid name descr p => createRoomStep s now sid name descr p
  | Op.joinRoom sid r => joinRoomStep s sid r
  | Op.leaveRoom sid r => leaveRoomStep s sid r

/-- Run a sequence of client events, accumulating every delivery. -/
def runOps (s : ServerState) : List Op → ServerState × List Out
  | [] => (s, [])
  | o :: rest =>
    let r1 := stepOp s o
    let r2 := runOps r1.1 rest
    (r2.1, r1.2 ++ r2.2)

/-- Select a `general_message` delivery addressed to `sid`. -/
def generalEventOf (sid : String) (o : Out) : Option GenMessage :=
  if o.1 == sid then
    match o.2 with
    | SEvent.generalMessageEv m => some m
    | _ => none
  else none

/-- The sequence of live room-scoped (`general_message`) events a given socket
receives from a list of deliveries. -/
def deliveredGeneralTo (outs : List Out) (sid : String) : List GenMessage :=
  outs.filterMap (generalEventOf sid)

/-- Number of deliveries of a given payload in an emission list. -/
def countEv (outs : List Out) (e : SEvent) : Nat :=
  (outs.filter (fun o => o.2 == e)).length

/- Database model: `chats` and `chat_members` as lists of rows. -/

/-- The `chat_type` column: `'public'`, `'private'`, `'room'`. -/
inductive ChatType where
  | pub
  | priv
  | room
  deriving DecidableEq

/-- A row of `chats` (uuid modelled as an opaque `Nat` key). -/
structure ChatRow where
  cid : Nat
  ctype : ChatType
  isActive : Bool
  deriving DecidableEq

/-- A row of `chat_members`. -/
structure MemberRow where
  chatId : Nat
  userId : String
  deriving DecidableEq

/-- The database state relevant to private chats. -/
structure ChatDB where
  chats : List ChatRow
  members : List MemberRow
  deriving DecidableEq

/-- `EXISTS` of a `chat_members` row for the given chat and user. -/
def isMemberRow (db : ChatDB) (c : Nat) (u : String) : Bool :=
  db.members.any (fun m => m.chatId == c && m.userId == u)

/-- `ChatModel.findPrivateChat(u1, u2)`: the first active private chat having a
member row for `u1`, a member row for `u2`, with `cm1.user_id != cm2.user_id`
(hence `u1 != u2`); `queryOne` returns the first matching row. -/
def findPrivateChat (db : ChatDB) (u1 u2 : String) : Option ChatRow :=
  db.chats.find? (fun c =>
    c.ctype == ChatType.priv && c.isActive &&
    isMemberRow db c.cid u1 && isMemberRow db c.cid u2 && u1 != u2)

/-- The members of the freshly inserted chat, as seen by the trigger's
`SELECT user_id FROM chat_members WHERE chat_id = NEW.id` subqueries. -/
def newChatMembers (db : ChatDB) (newId : Nat) : List String :=
  (db.members.filter (fun m => m.chatId == newId)).map (fun m => m.userId)

/-- The `EXISTS` test of `prevent_duplicate_private_chats`: the two scalar
subqueries are `LIMIT 1` and `LIMIT 1 OFFSET 1` over the new chat's member
rows; when either returns no row the SQL comparison with `NULL` never holds,
so the `EXISTS` is false. -/
def duplicatePrivateExists (db : ChatDB) (newId : Nat) : Bool :=
  match (newChatMembers db newId)[0]?, (newChatMembers db newId)[1]? with
  | some u1, some u2 =>
    db.chats.any (fun c =>
      c.ctype == ChatType.priv && c.cid != newId &&
      isMemberRow db c.cid u1 && isMemberRow db c.cid u2)
  | _, _ => false

/-- `ChatModel.create`: inside one transaction, insert the chat row (firing the
AFTER INSERT trigger at a point where the new chat has no member rows yet),
then insert the creator as admin member.  A raised exception aborts the
transaction. -/
def createChat (db : ChatDB) (chatId : Nat) (createdBy : String)
    (ctype : ChatType) : Except String ChatDB :=
  let db1 : ChatDB := ⟨db.chats ++ [⟨chatId, ctype, true⟩], db.members⟩
  if ctype == ChatType.priv && duplicatePrivateExists db1 chatId then
    Except.error "Private chat already exists between these users"
  else
    Except.ok ⟨db1.chats, db1.members ++ [⟨chatId, createdBy⟩]⟩

/-- `ChatModel.addMember`: `INSERT ... ON CONFLICT (chat_id, user_id) DO
NOTHING`; no trigger watches `chat_members`. -/
def addMember (db : ChatDB) (chatId : Nat) (userId : String) : ChatDB :=
  if db.members.any (fun m => m.chatId == chatId && m.userId == userId) then db
  else ⟨db.chats, db.members ++ [⟨chatId, userId⟩]⟩

/- Concrete scenarios used to settle the claims. -/

/-- One user connects, then sends two messages handled in the same
millisecond (`Date.now()` returns 5 both times). -/
def c1Trace : List Op := [Op.connect "s1" "alice", Op.send 5 "s1" "a", Op.send 5 "s1" "b"]

/-- State with a single open connection `s1` for identity `alice`. -/
def c2State1 : ServerState := (stepOp initialState (Op.connect "s1" "alice")).1

/-- Two users connect and each sends one message, both handled in the same
millisecond (`Date.now()` returns 7 both times). -/
def c4Trace : List Op :=
  [Op.connect "s1" "u1", Op.connect "s2" "u2", Op.send 7 "s1" "hi", Op.send 7 "s2" "yo"]

/-- State with a single open connection `d1` for identity `bob`. -/
def c3State1 : ServerState := (stepOp initialState (Op.connect "d1" "bob")).1

/-- State with a single open connection `s1` for identity `alice`. -/
def c7State : ServerState := (stepOp initialState (Op.connect "s1" "alice")).1

/-- Create a private chat between `alice` and `bob` twice, through
`ChatModel.create` followed by `ChatModel.addMember`, starting from an empty
database. -/
def dupScenario : Except String ChatDB :=
  (createChat ⟨[], []⟩ 1 "alice" ChatType.priv).bind (fun db1 =>
    (createChat (addMember db1 1 "bob") 2 "alice" ChatType.priv).map (fun db3 =>
      addMember db3 2 "bob"))

/-- The database produced by `dupScenario`: two active private chats, both with
member pair \x7balice, bob\x7d. -/
def finalDbC6 : ChatDB :=
  ⟨[⟨1, ChatType.priv, true⟩, ⟨2, ChatType.priv, true⟩],
   [⟨1, "alice"⟩, ⟨1, "bob"⟩, ⟨2, "alice"⟩, ⟨2, "bob"⟩]⟩

/-- Whether a client event is a `leave_room` for the public room `'general'`. -/
def removesGeneral : Op → Bool
  | Op.leaveRoom _ r => r == "general"
  | _ => false

/- Helper lemmas. -/

theorem list_find?_ext {α : Type} (p q : α → Bool) (h : ∀ x, p x = q x) :
    ∀ l : List α, l.find? p = l.find? q
  | [] => rfl
  | x :: xs => by
    by_cases hx : q x = true
    · rw [List.find?_cons_of_pos _ (by rw [h x]; exact hx), List.find?_cons_of_pos _ hx]
    · have hx' : ¬ p x = true := by rw [h x]; exact hx
      rw [List.find?_cons_of_neg _ hx', List.find?_cons_of_neg _ hx]
      exact list_find?_ext p q h xs

theorem bool_reorder (t u x y n : Bool) :
    (t && u && x && y && n) = (t && u && y && x && n) := by
  cases t <;> cases u <;> cases x <;> cases y <;> cases n <;> rfl

/- Claim theorems. -/

/-- C5: resolving the private room of a pair is symmetric in its arguments:
`ChatModel.findPrivateChat(A, B)` and `ChatModel.findPrivateChat(B, A)` return
the same private chat (or both return none) for every database state. -/
theorem C5_findPrivateChat_symm (db : ChatDB) (a b : String) :
    findPrivateChat db a b = findPrivateChat db b a := by
  have hne : (a != b) = (b != a) := by
    by_cases hab : a = b
    · subst hab; rfl
    · have h1 : (a != b) = true := bne_iff_ne.mpr hab
      have h2 : (b != a) = true := bne_iff_ne.mpr (Ne.symm hab)
      rw [h1, h2]
  unfold findPrivateChat
  apply list_find?_ext
  intro c
  rw [hne]
  exact bool_reorder _ _ _ _ _

/-- C6: contrary to the claim, the duplicate-prevention trigger never rejects
an insert made through `ChatModel.create`: the trigger fires after the chat
row is inserted but before any member row exists, so its member subqueries are
empty and the `EXISTS` test is vacuously false.  Starting from an empty store,
creating an alice-bob private chat twice succeeds and leaves two distinct
active private chats with the same member pair. -/
theorem C6_duplicate_private_pair_reachable :
    dupScenario = Except.ok finalDbC6 ∧
    (⟨1, ChatType.priv, true⟩ : ChatRow) ∈ finalDbC6.chats ∧
    (⟨2, ChatType.priv, true⟩ : ChatRow) ∈ finalDbC6.chats ∧
    (1 : Nat) ≠ 2 ∧
    isMemberRow finalDbC6 1 "alice" = true ∧ isMemberRow finalDbC6 1 "bob" = true ∧
    isMemberRow finalDbC6 2 "alice" = true ∧ isMemberRow finalDbC6 2 "bob" = true :=
  ⟨rfl, by decide, by decide, by decide, rfl, rfl, rfl, rfl⟩

/-- C9: the `get_user_rooms` and `get_public_rooms` handlers are constant
functions of the server state: in every state they reply to the requester with
the fixed one-element list (`My Private Room`) and the fixed two-element list
(`Tech Talk`, `Random Chat`) respectively, and change nothing. -/
theorem C9_room_list_replies_constant (s s' : ServerState) (sid : String) :
    getUserRoomsStep s sid = (s, [(sid, SEvent.userRoomsEv [myPrivateRoom])]) ∧
    getPublicRoomsStep s sid
      = (s, [(sid, SEvent.publicRoomsEv [techTalkRoom, randomChatRoom])]) ∧
    (getUserRoomsStep s sid).2 = (getUserRoomsStep s' sid).2 ∧
    (getPublicRoomsStep s sid).2 = (getPublicRoomsStep s' sid).2 ∧
    myPrivateRoom.name = "My Private Room" ∧
    techTalkRoom.name = "Tech Talk" ∧
    randomChatRoom.name = "Random Chat" :=
  ⟨rfl, rfl, rfl, rfl, rfl, rfl, rfl⟩

/-- C10: a `create_room` request from a connected socket leaves the server
state unchanged (no room record is kept and the creator's joined-room set is
untouched) and emits exactly one event: a `room_created` reply to the
requesting connection. -/
theorem C10_create_room_reply_only (s : ServerState) (now : Nat)
    (sid name descr : String) (p : Bool) (sock : Sock)
    (h : s.socks.find? (fun x => x.sid == sid) = some sock) :
    (createRoomStep s now sid name descr p).1 = s ∧
    (createRoomStep s now sid name descr p).2 =
      [(sid, SEvent.roomCreatedEv
        ⟨toString now, name, descr, 1, p, some "admin", some sock.userId⟩)] := by
  unfold createRoomStep
  rw [h]
  exact ⟨rfl, rfl⟩

/-- Witness for C10 at a concrete one-socket state. -/
theorem C10_create_room_reply_only_witness :
    ((ServerState.mk [⟨"s1", "alice", ["general"]⟩] [welcomeMessage]).socks.find?
        (fun x => x.sid == "s1") = some ⟨"s1", "alice", ["general"]⟩) ∧
    ((createRoomStep ⟨[⟨"s1", "alice", ["general"]⟩], [welcomeMessage]⟩ 7 "s1" "r" "d" true).1
        = ⟨[⟨"s1", "alice", ["general"]⟩], [welcomeMessage]⟩ ∧
      (createRoomStep ⟨[⟨"s1", "alice", ["general"]⟩], [welcomeMessage]⟩ 7 "s1" "r" "d" true).2
        = [("s1", SEvent.roomCreatedEv ⟨"7", "r", "d", 1, true, some "admin", some "alice"⟩)]) :=
  ⟨by decide,
   C10_create_room_reply_only ⟨[⟨"s1", "alice", ["general"]⟩], [welcomeMessage]⟩
     7 "s1" "r" "d" true ⟨"s1", "alice", ["general"]⟩ (by decide)⟩

/-- C1 counterexample: the send handler stamps messages with `Date.now()`, not
with a per-room counter.  After one connection and two sends handled in the
same millisecond (clock value 5), the recipient observes the stamp sequence
[5, 5]: the stamps do not start at a pinned 0 or 1, and the second delivered
event's stamp is not one greater than the first (the claim would force the
observed sequence to be [0, 1] or [1, 2]). -/
theorem C1_stamps_not_sequential :
    (deliveredGeneralTo (runOps initialState c1Trace).2 "s1").map (fun m => m.mid)
      = [5, 5] ∧
    ([5, 5] : List Nat) ≠ [0, 1] ∧ ([5, 5] : List Nat) ≠ [1, 2] ∧ ¬ (5 = 5 + 1) := by
  decide

/-- C2 counterexample: with one connection of `alice` already open (count 1),
a second connection for `alice` (a 1-to-2 transition) still broadcasts a
`user_joined` presence notification, delivered to `s1`; the claim says such a
transition emits no presence notification at all. -/
theorem C2_second_connection_notifies :
    (c2State1.socks.filter (fun x => x.userId == "alice")).length = 1 ∧
    ("s1", SEvent.userJoinedEv "alice") ∈ (stepOp c2State1 (Op.connect "s2" "alice")).2 := by
  decide

/-- C3 counterexample: when `bob` opens a second connection `d2`, the presence
notification about `bob` is delivered to `d1`, a connection owned by `bob`
himself; the claim says the recipient set never contains any of the identity's
own connections. -/
theorem C3_own_connection_notified :
    (Sock.mk "d1" "bob" ["general"]) ∈ c3State1.socks ∧
    ("d1", SEvent.userJoinedEv "bob") ∈ (stepOp c3State1 (Op.connect "d2" "bob")).2 := by
  decide

/-- C4 counterexample: two sends from different connections handled in the
same millisecond produce two distinct messages carrying the same stamp 7, so
the two messages do not carry distinct, consecutive sequence numbers. -/
theorem C4_stamps_not_consecutive :
    deliveredGeneralTo (runOps initialState c4Trace).2 "s1"
      = [⟨7, "hi", "u1"⟩, ⟨7, "yo", "u2"⟩] ∧
    deliveredGeneralTo (runOps initialState c4Trace).2 "s2"
      = [⟨7, "hi", "u1"⟩, ⟨7, "yo", "u2"⟩] ∧
    (⟨7, "hi", "u1"⟩ : GenMessage) ≠ ⟨7, "yo", "u2"⟩ ∧
    (⟨7, "hi", "u1"⟩ : GenMessage).mid = (⟨7, "yo", "u2"⟩ : GenMessage).mid := by
  decide

/-- C7 counterexample: the send handler never validates content.  A send whose
content is the empty string (empty after trim) is broadcast to the room and
appended to the in-memory store instead of being rejected. -/
theorem C7_empty_message_delivered :
    (stepOp c7State (Op.send 9 "s1" "")).2
      = [("s1", SEvent.generalMessageEv ⟨9, "", "alice"⟩)] ∧
    (stepOp c7State (Op.send 9 "s1" "")).1.generalMessages
      = c7State.generalMessages ++ [⟨9, "", "alice"⟩] := by
  decide

/-- C8 counterexample: a client may issue `leave_room` with room id
`'general'`; afterwards its joined-room set no longer contains the public room
and a message sent to the public room is delivered to nobody, refuting the
claimed invariant for reachable states. -/
theorem C8_general_can_be_left :
    (runOps initialState [Op.connect "s1" "alice", Op.leaveRoom "s1" "general"]).1.socks
      = [⟨"s1", "alice", []⟩] ∧
    ¬ ("general" ∈ (Sock.mk "s1" "alice" []).rooms) ∧
    (stepOp (runOps initialState [Op.connect "s1" "alice", Op.leaveRoom "s1" "general"]).1
        (Op.send 3 "s1" "hi")).2 = [] := by
  decide

/- Delivery bookkeeping lemmas. -/

theorem runOps_cons_snd (s : ServerState) (o : Op) (rest : List Op) :
    (runOps s (o :: rest)).2 = (stepOp s o).2 ++ (runOps (stepOp s o).1 rest).2 := rfl

theorem delivered_append (o1 o2 : List Out) (c : String) :
    deliveredGeneralTo (o1 ++ o2) c = deliveredGeneralTo o1 c ++ deliveredGeneralTo o2 c :=
  List.filterMap_append o1 o2 (generalEventOf c)

theorem send_socks (s : ServerState) (now : Nat) (sid content : String) :
    (stepOp s (Op.send now sid content)).1.socks = s.socks := by
  cases hfind : s.socks.find? (fun y => y.sid == sid) with
  | none => simp [stepOp, sendGeneralMessageStep, hfind]
  | some sock => simp [stepOp, sendGeneralMessageStep, hfind]

theorem delivered_broadcast (l : List Sock) (m : GenMessage) (c : String) :
    deliveredGeneralTo (l.map (fun x => (x.sid, SEvent.generalMessageEv m))) c
      = (l.filter (fun y => y.sid == c)).map (fun _ => m) := by
  induction l with
  | nil => rfl
  | cons a t ih =>
    cases hac : (a.sid == c) with
    | true =>
      simp [deliveredGeneralTo, List.filterMap_cons, generalEventOf, hac, List.filter_cons] at *
      exact ih
    | false =>
      simp [deliveredGeneralTo, List.filterMap_cons, generalEventOf, hac, List.filter_cons] at *
      exact ih

theorem filter_sid_single (c : String) :
    ∀ (l : List Sock) (x : Sock), x ∈ l → x.sid = c → (l.map Sock.sid).Nodup →
      l.filter (fun y => y.sid == c) = [x]
  | [], x, hx, _, _ => absurd hx (List.not_mem_nil x)
  | a :: t, x, hx, hc, hnd => by
    rw [List.map_cons] at hnd
    have hhead : a.sid ∉ t.map Sock.sid := (List.nodup_cons.mp hnd).1
    have hnd' : (t.map Sock.sid).Nodup := (List.nodup_cons.mp hnd).2
    rcases List.mem_cons.mp hx with hxa | hxt
    · subst hxa
      rw [@List.filter_cons_of_pos Sock (fun y => y.sid == c) x t (by simpa using hc)]
      have hrest : t.filter (fun y => y.sid == c) = [] := by
        rw [List.filter_eq_nil_iff]
        intro y hy hyc
        exact hhead (by
          rw [show x.sid = y.sid from by rw [hc, (by simpa using hyc : y.sid = c)]]
          exact List.mem_map.mpr ⟨y, hy, rfl⟩)
      rw [hrest]
    · have hane : ¬ ((a.sid == c) = true) := by
        intro hac
        exact hhead (by
          rw [show a.sid = x.sid from by rw [(by simpa using hac : a.sid = c), hc]]
          exact List.mem_map.mpr ⟨x, hxt, rfl⟩)
      rw [@List.filter_cons_of_neg Sock (fun y => y.sid == c) a t hane]
      exact filter_sid_single c t x hxt hc hnd'

theorem delivered_send_none (s : ServerState) (now : Nat) (sid content c : String)
    (hfind : s.socks.find? (fun y => y.sid == sid) = none) :
    deliveredGeneralTo (stepOp s (Op.send now sid content)).2 c = [] := by
  simp [stepOp, sendGeneralMessageStep, hfind, deliveredGeneralTo]

theorem delivered_send_some (s : ServerState) (now : Nat) (sid content c : String)
    (sock x : Sock) (hfind : s.socks.find? (fun y => y.sid == sid) = some sock)
    (hx : x ∈ s.socks) (hc : x.sid = c) (hg : x.rooms.contains "general" = true)
    (hnd : (s.socks.map Sock.sid).Nodup) :
    deliveredGeneralTo (stepOp s (Op.send now sid content)).2 c
      = [⟨now, content, sock.userId⟩] := by
  simp only [stepOp, sendGeneralMessageStep, hfind]
  rw [delivered_broadcast]
  have hxin : x ∈ s.socks.filter (fun y => y.rooms.contains "general") :=
    List.mem_filter.mpr ⟨hx, hg⟩
  have hndf : ((s.socks.filter (fun y => y.rooms.contains "general")).map Sock.sid).Nodup :=
    List.Nodup.sublist (List.Sublist.map Sock.sid (List.filter_sublist s.socks)) hnd
  rw [filter_sid_single c _ x hxin hc hndf]
  rfl

theorem sends_agree (c1 c2 : String) :
    ∀ (ops : List Op) (s : ServerState) (x1 x2 : Sock),
      (∀ o ∈ ops, ∃ now sid content, o = Op.send now sid content) →
      x1 ∈ s.socks → x1.sid = c1 → x1.rooms.contains "general" = true →
      x2 ∈ s.socks → x2.sid = c2 → x2.rooms.contains "general" = true →
      (s.socks.map Sock.sid).Nodup →
      deliveredGeneralTo (runOps s ops).2 c1 = deliveredGeneralTo (runOps s ops).2 c2
  | [], _, _, _, _, _, _, _, _, _, _, _ => rfl
  | o :: rest, s, x1, x2, hops, h1, e1, g1, h2, e2, g2, hnd => by
    obtain ⟨now, sid, content, rfl⟩ := hops o (List.mem_cons_self o rest)
    have hsocks : (stepOp s (Op.send now sid content)).1.socks = s.socks :=
      send_socks s now sid content
    have hrest := sends_agree c1 c2 rest (stepOp s (Op.send now sid content)).1 x1 x2
      (fun o' ho' => hops o' (List.mem_cons_of_mem _ ho'))
      (by rw [hsocks]; exact h1) e1 g1 (by rw [hsocks]; exact h2) e2 g2
      (by rw [hsocks]; exact hnd)
    have hfirst : deliveredGeneralTo (stepOp s (Op.send now sid content)).2 c1
        = deliveredGeneralTo (stepOp s (Op.send now sid content)).2 c2 := by
      cases hfind : s.socks.find? (fun y => y.sid == sid) with
      | none =>
        rw [delivered_send_none s now sid content c1 hfind,
            delivered_send_none s now sid content c2 hfind]
      | some sock =>
        rw [delivered_send_some s now sid content c1 sock x1 hfind h1 e1 g1 hnd,
            delivered_send_some s now sid content c2 sock x2 hfind h2 e2 g2 hnd]
    rw [runOps_cons_snd, delivered_append, delivered_append, hfirst, hrest]

theorem beq_updated_joined (l : List String) (u : String) :
    (SEvent.onlineUsersUpdatedEv l == SEvent.userJoinedEv u) = false := rfl

theorem beq_updated_left (l : List String) (u : String) :
    (SEvent.onlineUsersUpdatedEv l == SEvent.userLeftEv u) = false := rfl

theorem connect_joined_filter (s : ServerState) (sid uid : String) :
    (connectStep s sid uid).2.filter (fun o => o.2 == SEvent.userJoinedEv uid)
      = s.socks.map (fun x => (x.sid, SEvent.userJoinedEv uid)) := by
  simp only [connectStep, List.filter_append, List.filter_map, Function.comp_def]
  simp [beq_updated_joined]

theorem countEv_connect (s : ServerState) (sid uid : String) :
    countEv (connectStep s sid uid).2 (SEvent.userJoinedEv uid) = s.socks.length := by
  unfold countEv
  rw [connect_joined_filter, List.length_map]

theorem disconnect_left_filter (s : ServerState) (sid : String) (sock : Sock)
    (hfind : s.socks.find? (fun x => x.sid == sid) = some sock) :
    (disconnectStep s sid).2.filter (fun o => o.2 == SEvent.userLeftEv sock.userId)
      = (s.socks.filter (fun x => x.sid != sid)).map
          (fun x => (x.sid, SEvent.userLeftEv sock.userId)) := by
  simp only [disconnectStep, hfind, List.filter_append, List.filter_map, Function.comp_def]
  simp [beq_updated_left]

theorem countEv_disconnect (s : ServerState) (sid : String) (sock : Sock)
    (hfind : s.socks.find? (fun x => x.sid == sid) = some sock) :
    countEv (disconnectStep s sid).2 (SEvent.userLeftEv sock.userId)
      = (s.socks.filter (fun x => x.sid != sid)).length := by
  unfold countEv
  rw [disconnect_left_filter s sid sock hfind, List.length_map]

theorem mem_general_preserved (o : Op) (ho : removesGeneral o = false) (s : ServerState)
    (hs : ∀ x ∈ s.socks, "general" ∈ x.rooms) :
    ∀ x ∈ (stepOp s o).1.socks, "general" ∈ x.rooms := by
  cases o with
  | connect sid uid =>
    intro x hx
    simp only [stepOp, connectStep] at hx
    rcases List.mem_append.mp hx with hx1 | hx2
    · exact hs x hx1
    · rw [List.mem_singleton.mp hx2]
      exact List.mem_singleton.mpr rfl
  | disconnect sid =>
    intro x hx
    cases hfind : s.socks.find? (fun y => y.sid == sid) with
    | none => simp only [stepOp, disconnectStep, hfind] at hx; exact hs x hx
    | some sock =>
      simp only [stepOp, disconnectStep, hfind] at hx
      exact hs x (List.mem_of_mem_filter hx)
  | send now sid content =>
    intro x hx
    cases hfind : s.socks.find? (fun y => y.sid == sid) with
    | none => simp only [stepOp, sendGeneralMessageStep, hfind] at hx; exact hs x hx
    | some sock => simp only [stepOp, sendGeneralMessageStep, hfind] at hx; exact hs x hx
  | getGeneral sid => intro x hx; exact hs x hx
  | getOnline sid =>
    intro x hx
    cases hfind : s.socks.find? (fun y => y.sid == sid) with
    | none => simp only [stepOp, getOnlineUsersStep, hfind] at hx; exact hs x hx
    | some sock => simp only [stepOp, getOnlineUsersStep, hfind] at hx; exact hs x hx
  | getUserRooms sid => intro x hx; exact hs x hx
  | getPublicRooms sid => intro x hx; exact hs x hx
  | createRoom now sid name descr p =>
    intro x hx
    cases hfind : s.socks.find? (fun y => y.sid == sid) with
    | none => simp only [stepOp, createRoomStep, hfind] at hx; exact hs x hx
    | some sock => simp only [stepOp, createRoomStep, hfind] at hx; exact hs x hx
  | joinRoom sid r =>
    intro x hx
    simp only [stepOp, joinRoomStep] at hx
    obtain ⟨y, hy, hxy⟩ := List.mem_map.mp hx
    subst hxy
    by_cases hsid : (y.sid == sid) = true
    · simp only [if_pos hsid]
      by_cases hcont : (y.rooms.contains r) = true
      · simp only [if_pos hcont]
        exact hs y hy
      · simp only [if_neg hcont]
        exact List.mem_append_left _ (hs y hy)
    · simp only [if_neg hsid]
      exact hs y hy
  | leaveRoom sid r =>
    intro x hx
    have hr : ("general" != r) = true := by
      have hne : r ≠ "general" := by
        intro hre
        rw [show removesGeneral (Op.leaveRoom sid r) = (r == "general") from rfl, hre] at ho
        simp at ho
      exact bne_iff_ne.mpr (Ne.symm hne)
    simp only [stepOp, leaveRoomStep] at hx
    obtain ⟨y, hy, hxy⟩ := List.mem_map.mp hx
    subst hxy
    by_cases hsid : (y.sid == sid) = true
    · simp only [if_pos hsid]
      exact List.mem_filter.mpr ⟨hs y hy, hr⟩
    · simp only [if_neg hsid]
      exact hs y hy

theorem runOps_preserves_general :
    ∀ (ops : List Op) (s : ServerState),
      (∀ o ∈ ops, removesGeneral o = false) →
      (∀ x ∈ s.socks, "general" ∈ x.rooms) →
      ∀ x ∈ (runOps s ops).1.socks, "general" ∈ x.rooms
  | [], _, _, hs => hs
  | o :: rest, s, hops, hs =>
    runOps_preserves_general rest (stepOp s o).1
      (fun o' ho' => hops o' (List.mem_cons_of_mem _ ho'))
      (mem_general_preserved o (hops o (List.mem_cons_self o rest)) s hs)

/-- C1 amended: what does hold of the send handler is recipient agreement: for
any run of send events from a state whose socket ids are distinct, any two
sockets that are members of room `'general'` receive exactly the same sequence
of delivered room events (same stamps, same order).  The stamps themselves are
clock values, not a gapless per-room counter. -/
theorem C1_recipients_agree (s : ServerState) (ops : List Op)
    (hops : ∀ o ∈ ops, ∃ now sid content, o = Op.send now sid content)
    (c1 c2 : String) (x1 x2 : Sock)
    (h1 : x1 ∈ s.socks) (e1 : x1.sid = c1) (g1 : x1.rooms.contains "general" = true)
    (h2 : x2 ∈ s.socks) (e2 : x2.sid = c2) (g2 : x2.rooms.contains "general" = true)
    (hnd : (s.socks.map Sock.sid).Nodup) :
    deliveredGeneralTo (runOps s ops).2 c1 = deliveredGeneralTo (runOps s ops).2 c2 :=
  sends_agree c1 c2 ops s x1 x2 hops h1 e1 g1 h2 e2 g2 hnd

/-- Witness for C1 at a concrete two-socket state and one send. -/
theorem C1_recipients_agree_witness :
    (Sock.mk "a1" "u1" ["general"]
        ∈ (ServerState.mk [⟨"a1", "u1", ["general"]⟩, ⟨"a2", "u2", ["general"]⟩]
            [welcomeMessage]).socks) ∧
    deliveredGeneralTo (runOps ⟨[⟨"a1", "u1", ["general"]⟩, ⟨"a2", "u2", ["general"]⟩],
        [welcomeMessage]⟩ [Op.send 4 "a1" "m"]).2 "a1"
      = deliveredGeneralTo (runOps ⟨[⟨"a1", "u1", ["general"]⟩, ⟨"a2", "u2", ["general"]⟩],
          [welcomeMessage]⟩ [Op.send 4 "a1" "m"]).2 "a2" :=
  ⟨by decide,
   C1_recipients_agree ⟨[⟨"a1", "u1", ["general"]⟩, ⟨"a2", "u2", ["general"]⟩],
       [welcomeMessage]⟩ [Op.send 4 "a1" "m"]
     (by
       intro o ho
       exact ⟨4, "a1", "m", by simpa using ho⟩)
     "a1" "a2" ⟨"a1", "u1", ["general"]⟩ ⟨"a2", "u2", ["general"]⟩
     (by decide) rfl (by decide) (by decide) rfl (by decide) (by decide)⟩

/-- C2 amended: presence notifications are per connection event, not per
0-to-1 / 1-to-0 identity transition: every connection broadcasts one
`user_joined` to each previously connected socket and every disconnection of a
connected socket broadcasts one `user_left` to each remaining socket,
regardless of how many other connections the identity holds. -/
theorem C2_presence_per_connection (s : ServerState) (sid uid sid' : String)
    (sock : Sock) (hfind : s.socks.find? (fun x => x.sid == sid') = some sock) :
    countEv (connectStep s sid uid).2 (SEvent.userJoinedEv uid) = s.socks.length ∧
    countEv (disconnectStep s sid').2 (SEvent.userLeftEv sock.userId)
      = (s.socks.filter (fun x => x.sid != sid')).length :=
  ⟨countEv_connect s sid uid, countEv_disconnect s sid' sock hfind⟩

/-- Witness for C2: a second connection for `alice` still produces one
`user_joined` delivery, and her disconnect one `user_left` count. -/
theorem C2_presence_per_connection_witness :
    ((ServerState.mk [⟨"s1", "alice", ["general"]⟩] [welcomeMessage]).socks.find?
        (fun x => x.sid == "s1") = some ⟨"s1", "alice", ["general"]⟩) ∧
    (countEv (connectStep ⟨[⟨"s1", "alice", ["general"]⟩], [welcomeMessage]⟩ "s2" "alice").2
        (SEvent.userJoinedEv "alice")
      = (ServerState.mk [⟨"s1", "alice", ["general"]⟩] [welcomeMessage]).socks.length ∧
     countEv (disconnectStep ⟨[⟨"s1", "alice", ["general"]⟩], [welcomeMessage]⟩ "s1").2
        (SEvent.userLeftEv "alice")
      = ((ServerState.mk [⟨"s1", "alice", ["general"]⟩] [welcomeMessage]).socks.filter
          (fun x => x.sid != "s1")).length) :=
  ⟨by decide,
   C2_presence_per_connection ⟨[⟨"s1", "alice", ["general"]⟩], [welcomeMessage]⟩
     "s2" "alice" "s1" ⟨"s1", "alice", ["general"]⟩ (by decide)⟩

/-- C3 amended: the recipients of a presence notification are exactly the
other connected sockets — only the connection that triggered the event is
excluded.  Connections owned by the same identity are among the recipients;
the triggering socket id itself never is. -/
theorem C3_presence_recipients (s : ServerState) (sid uid sid' : String) (sock : Sock)
    (hfresh : ∀ x ∈ s.socks, x.sid ≠ sid)
    (hfind : s.socks.find? (fun x => x.sid == sid') = some sock) :
    (((connectStep s sid uid).2.filter (fun o => o.2 == SEvent.userJoinedEv uid)).map
        Prod.fst = s.socks.map Sock.sid ∧
      sid ∉ ((connectStep s sid uid).2.filter
        (fun o => o.2 == SEvent.userJoinedEv uid)).map Prod.fst) ∧
    ((((disconnectStep s sid').2.filter
          (fun o => o.2 == SEvent.userLeftEv sock.userId)).map Prod.fst)
        = (s.socks.filter (fun x => x.sid != sid')).map Sock.sid ∧
      sid' ∉ ((disconnectStep s sid').2.filter
        (fun o => o.2 == SEvent.userLeftEv sock.userId)).map Prod.fst) := by
  have hc : ((connectStep s sid uid).2.filter
      (fun o => o.2 == SEvent.userJoinedEv uid)).map Prod.fst = s.socks.map Sock.sid := by
    rw [connect_joined_filter]
    simp [Function.comp_def]
  have hd : (((disconnectStep s sid').2.filter
      (fun o => o.2 == SEvent.userLeftEv sock.userId)).map Prod.fst)
      = (s.socks.filter (fun x => x.sid != sid')).map Sock.sid := by
    rw [disconnect_left_filter s sid' sock hfind]
    simp [Function.comp_def]
  refine ⟨⟨hc, ?_⟩, ⟨hd, ?_⟩⟩
  · rw [hc]
    intro hmem
    obtain ⟨x, hx, hxe⟩ := List.mem_map.mp hmem
    exact hfresh x hx hxe
  · rw [hd]
    intro hmem
    obtain ⟨x, hx, hxe⟩ := List.mem_map.mp hmem
    have := (List.mem_filter.mp hx).2
    rw [hxe] at this
    simp at this

/-- Witness for C3 at a one-socket state of identity `bob`. -/
theorem C3_presence_recipients_witness :
    (∀ x ∈ (ServerState.mk [⟨"d1", "bob", ["general"]⟩] [welcomeMessage]).socks,
      x.sid ≠ "d2") ∧
    ((((connectStep ⟨[⟨"d1", "bob", ["general"]⟩], [welcomeMessage]⟩ "d2" "bob").2.filter
          (fun o => o.2 == SEvent.userJoinedEv "bob")).map Prod.fst
        = (ServerState.mk [⟨"d1", "bob", ["general"]⟩] [welcomeMessage]).socks.map Sock.sid ∧
      "d2" ∉ ((connectStep ⟨[⟨"d1", "bob", ["general"]⟩], [welcomeMessage]⟩ "d2" "bob").2.filter
          (fun o => o.2 == SEvent.userJoinedEv "bob")).map Prod.fst) ∧
     ((((disconnectStep ⟨[⟨"d1", "bob", ["general"]⟩], [welcomeMessage]⟩ "d1").2.filter
            (fun o => o.2 == SEvent.userLeftEv "bob")).map Prod.fst)
         = ((ServerState.mk [⟨"d1", "bob", ["general"]⟩] [welcomeMessage]).socks.filter
             (fun x => x.sid != "d1")).map Sock.sid ∧
       "d1" ∉ ((disconnectStep ⟨[⟨"d1", "bob", ["general"]⟩], [welcomeMessage]⟩ "d1").2.filter
           (fun o => o.2 == SEvent.userLeftEv "bob")).map Prod.fst)) :=
  ⟨by decide,
   C3_presence_recipients ⟨[⟨"d1", "bob", ["general"]⟩], [welcomeMessage]⟩
     "d2" "bob" "d1" ⟨"d1", "bob", ["general"]⟩ (by decide) (by decide)⟩

/-- C4 amended: within one server process the handlers run to completion one
at a time, so for two sends (from possibly different connections) every socket
in the room observes the two messages in the same relative order; the two
messages are stamped with the clock values at handling time, which are not
required to be distinct or consecutive. -/
theorem C4_in_process_order_consistent (s : ServerState) (t1 t2 : Nat)
    (sidA sidB ca cb : String) (xa xb : Sock)
    (hfa : s.socks.find? (fun y => y.sid == sidA) = some xa)
    (hfb : s.socks.find? (fun y => y.sid == sidB) = some xb)
    (c1 c2 : String) (x1 x2 : Sock)
    (h1 : x1 ∈ s.socks) (e1 : x1.sid = c1) (g1 : x1.rooms.contains "general" = true)
    (h2 : x2 ∈ s.socks) (e2 : x2.sid = c2) (g2 : x2.rooms.contains "general" = true)
    (hnd : (s.socks.map Sock.sid).Nodup) :
    deliveredGeneralTo (runOps s [Op.send t1 sidA ca, Op.send t2 sidB cb]).2 c1
      = [⟨t1, ca, xa.userId⟩, ⟨t2, cb, xb.userId⟩] ∧
    deliveredGeneralTo (runOps s [Op.send t1 sidA ca, Op.send t2 sidB cb]).2 c2
      = [⟨t1, ca, xa.userId⟩, ⟨t2, cb, xb.userId⟩] := by
  have key : ∀ (c : String) (x : Sock), x ∈ s.socks → x.sid = c →
      x.rooms.contains "general" = true →
      deliveredGeneralTo (runOps s [Op.send t1 sidA ca, Op.send t2 sidB cb]).2 c
        = [⟨t1, ca, xa.userId⟩, ⟨t2, cb, xb.userId⟩] := by
    intro c x hx ec gx
    have hsocks : (stepOp s (Op.send t1 sidA ca)).1.socks = s.socks :=
      send_socks s t1 sidA ca
    rw [runOps_cons_snd, delivered_append,
        delivered_send_some s t1 sidA ca c xa x hfa hx ec gx hnd,
        runOps_cons_snd, delivered_append,
        delivered_send_some (stepOp s (Op.send t1 sidA ca)).1 t2 sidB cb c xb x
          (by rw [hsocks]; exact hfb) (by rw [hsocks]; exact hx) ec gx
          (by rw [hsocks]; exact hnd)]
    rfl
  exact ⟨key c1 x1 h1 e1 g1, key c2 x2 h2 e2 g2⟩

/-- Witness for C4 at a concrete two-socket state with two same-millisecond
sends. -/
theorem C4_in_process_order_consistent_witness :
    ((ServerState.mk [⟨"a1", "u1", ["general"]⟩, ⟨"a2", "u2", ["general"]⟩]
        [welcomeMessage]).socks.find? (fun y => y.sid == "a1")
      = some ⟨"a1", "u1", ["general"]⟩) ∧
    (deliveredGeneralTo (runOps ⟨[⟨"a1", "u1", ["general"]⟩, ⟨"a2", "u2", ["general"]⟩],
          [welcomeMessage]⟩ [Op.send 7 "a1" "hi", Op.send 7 "a2" "yo"]).2 "a1"
        = [⟨7, "hi", "u1"⟩, ⟨7, "yo", "u2"⟩] ∧
      deliveredGeneralTo (runOps ⟨[⟨"a1", "u1", ["general"]⟩, ⟨"a2", "u2", ["general"]⟩],
          [welcomeMessage]⟩ [Op.send 7 "a1" "hi", Op.send 7 "a2" "yo"]).2 "a2"
        = [⟨7, "hi", "u1"⟩, ⟨7, "yo", "u2"⟩]) :=
  ⟨by decide,
   C4_in_process_order_consistent
     ⟨[⟨"a1", "u1", ["general"]⟩, ⟨"a2", "u2", ["general"]⟩], [welcomeMessage]⟩
     7 7 "a1" "a2" "hi" "yo" ⟨"a1", "u1", ["general"]⟩ ⟨"a2", "u2", ["general"]⟩
     (by decide) (by decide) "a1" "a2" ⟨"a1", "u1", ["general"]⟩ ⟨"a2", "u2", ["general"]⟩
     (by decide) rfl (by decide) (by decide) rfl (by decide) (by decide)⟩

/-- C7 amended: the send handler performs no content validation at all: a send
from a connected socket with any content whatsoever — in particular any
content that is empty after trimming, such as the empty or an all-whitespace
string — is appended to the in-memory store and broadcast to every socket in
the room; no error event exists in the handler. -/
theorem C7_no_content_validation (s : ServerState) (now : Nat) (sid content : String)
    (sock : Sock) (hfind : s.socks.find? (fun x => x.sid == sid) = some sock) :
    (stepOp s (Op.send now sid content)).1.generalMessages
      = s.generalMessages ++ [⟨now, content, sock.userId⟩] ∧
    (stepOp s (Op.send now sid content)).2
      = (s.socks.filter (fun x => x.rooms.contains "general")).map
          (fun x => (x.sid, SEvent.generalMessageEv ⟨now, content, sock.userId⟩)) := by
  constructor
  · simp [stepOp, sendGeneralMessageStep, hfind]
  · simp [stepOp, sendGeneralMessageStep, hfind]

/-- Witness for C7: a whitespace-only (trim-empty) send from `s1` is stored
and delivered. -/
theorem C7_no_content_validation_witness :
    ((ServerState.mk [⟨"s1", "alice", ["general"]⟩] [welcomeMessage]).socks.find?
        (fun x => x.sid == "s1") = some ⟨"s1", "alice", ["general"]⟩) ∧
    ((stepOp ⟨[⟨"s1", "alice", ["general"]⟩], [welcomeMessage]⟩ (Op.send 9 "s1" " ")).1.generalMessages
        = [welcomeMessage] ++ [⟨9, " ", "alice"⟩] ∧
      (stepOp ⟨[⟨"s1", "alice", ["general"]⟩], [welcomeMessage]⟩ (Op.send 9 "s1" " ")).2
        = ((ServerState.mk [⟨"s1", "alice", ["general"]⟩] [welcomeMessage]).socks.filter
            (fun x => x.rooms.contains "general")).map
            (fun x => (x.sid, SEvent.generalMessageEv ⟨9, " ", "alice"⟩))) :=
  ⟨by decide,
   C7_no_content_validation ⟨[⟨"s1", "alice", ["general"]⟩], [welcomeMessage]⟩
     9 "s1" " " ⟨"s1", "alice", ["general"]⟩ (by decide)⟩

/-- C8 amended: every connection is joined to the public room `'general'` at
registration without issuing any join event, and the joined-set invariant
holds in every state reached by operations that contain no `leave_room` for
`'general'`; a client can, however, issue such a `leave_room` and fall out of
the public room. -/
theorem C8_implicit_public_membership (s : ServerState) (ops : List Op)
    (hs : ∀ x ∈ s.socks, "general" ∈ x.rooms)
    (hops : ∀ o ∈ ops, removesGeneral o = false) :
    (∀ sid uid, Sock.mk sid uid ["general"] ∈ (connectStep s sid uid).1.socks) ∧
    ∀ x ∈ (runOps s ops).1.socks, "general" ∈ x.rooms :=
  ⟨fun sid uid => List.mem_append_right s.socks (List.mem_singleton.mpr rfl),
   runOps_preserves_general ops s hops hs⟩

/-- Witness for C8 on a trace with a connect, a join and a non-general leave. -/
theorem C8_implicit_public_membership_witness :
    (∀ o ∈ [Op.connect "s1" "alice", Op.joinRoom "s1" "r9", Op.leaveRoom "s1" "r9"],
      removesGeneral o = false) ∧
    ((∀ sid uid, Sock.mk sid uid ["general"] ∈ (connectStep initialState sid uid).1.socks) ∧
     ∀ x ∈ (runOps initialState
        [Op.connect "s1" "alice", Op.joinRoom "s1" "r9", Op.leaveRoom "s1" "r9"]).1.socks,
        "general" ∈ x.rooms) :=
  ⟨by decide,
   C8_implicit_public_membership initialState
     [Op.connect "s1" "alice", Op.joinRoom "s1" "r9", Op.leaveRoom "s1" "r9"]
     (fun x hx => absurd hx (List.not_mem_nil x)) (by decide)⟩
